import Mathlib

/-!
Verification development for the career-ai-assistant repository.

The deterministic core (fit scorer, intent router, reasoning loop, chunker,
session store) is embedded shallowly below; the frontend helpers
(sendChat, ChatWindow.handleSend) are translated from
src/frontend/src/services/api.js.  Routing behaviour is embedded from the
dispatch graph in src/flowchart.md.  Components whose implementation files
are not among the provided sources are modelled from the specification and
say so in their doc comments.
-/

namespace CareerAI

/-! ### Deterministic scoring layer -/

/-- A skill set: canonical skill tokens from the closed vocabulary produced by
the skill extractor. -/
abbrev SkillSet := Finset String

/-- Result of the deterministic fit scorer: a score in the unit interval and
the three breakdown sets. -/
structure FitResult where
  score : ℚ
  matched : SkillSet
  missing : SkillSet
  bonus : SkillSet
deriving DecidableEq

/-- Modelled from the spec: fit_scorer.py is not among the provided source
files.  The formulas are those of the scoring pipeline in the repository
README and flowchart (score is the cardinality of resume ∩ job over the
cardinality of job; matched is resume ∩ job; missing is job minus resume;
bonus is resume minus job), with the score defined as 0 when the job skill
set is empty. -/
def fit_score (resume job : SkillSet) : FitResult :=
  { score := if job.card = 0 then 0 else ((resume ∩ job).card : ℚ) / (job.card : ℚ)
    matched := resume ∩ job
    missing := job \ resume
    bonus := resume \ job }

/-! ### Intent classification and routing

Embedded from the fn-agent internal flow in src/flowchart.md: the intent
classifier yields one of four intents plus a nullable tool hint, or fails;
the router dispatches to the metadata fast-path, the conversational
fast-path, or the ReActAgent (reasoning) path, with the fallback edges drawn
in the flowchart. -/

/-- The four intents assigned by the classifier. -/
inductive Intent
  | metadata
  | tool
  | retrieval
  | conversational
deriving DecidableEq

/-- Outcome of the classifier LLM call: a label with an optional tool hint,
or failure (timeout, malformed response, unparsable output). -/
inductive ClassifyOutcome
  | ok (intent : Intent) (toolHint : Option String)
  | failed
deriving DecidableEq

/-- The dispatch path that produced the answer (the routed_via field). -/
inductive RoutedVia
  | metadataFastpath
  | conversationalFastpath
  | reasoning
deriving DecidableEq

/-- Outcomes of the external calls a single request can make.  A none value
models an internal failure of that call; the ReActAgent path always produces
an answer (its own failure policy is the reasoning-loop development below). -/
structure RouterEnv where
  metadataAnswer : Option String
  convAnswer : Option String
  agentAnswer : String → String

/-- The response payload of the chat entry point. -/
structure AgentResponse where
  answer : String
  session_id : String
  intent : Intent
  routed_via : RoutedVia
deriving DecidableEq

/-- Effective query built before entering the reasoning path: the selected
job reference and the classifier tool hint are prepended to the raw query
(src/flowchart.md, Build Effective Query subgraph). -/
def effectiveQuery (query : String) (jobId toolHint : Option String) : String :=
  let q1 := match jobId with
    | some j => "[Selected job_id: " ++ j ++ "] " ++ query
    | none => query
  match toolHint with
  | some t => "[USE_TOOL: " ++ t ++ "] " ++ q1
  | none => q1

/-- Answer a request through the full ReActAgent (reasoning) path. -/
def reasoningResponse (env : RouterEnv) (sid query : String)
    (jobId toolHint : Option String) (intent : Intent) : AgentResponse :=
  { answer := env.agentAnswer (effectiveQuery query jobId toolHint)
    session_id := sid
    intent := intent
    routed_via := RoutedVia.reasoning }

/-- The conversational fast-path: a direct llm.chat call; on LLM failure it
falls through to the reasoning path (src/flowchart.md, ConvFastPath). -/
def convFastpath (env : RouterEnv) (sid query : String)
    (jobId toolHint : Option String) (intent : Intent) : AgentResponse :=
  match env.convAnswer with
  | some a =>
      { answer := a, session_id := sid, intent := intent
        routed_via := RoutedVia.conversationalFastpath }
  | none => reasoningResponse env sid query jobId toolHint intent

/-- The router, embedded from the dispatch graph of src/flowchart.md:
classification failure is treated as conversational and sent through the
full agent; metadata goes to the metadata fast-path and, when the handler
fails, falls to the conversational fast-path; conversational goes to the
conversational fast-path unless a tool hint is present; tool and retrieval
enter the reasoning path directly. -/
def route (env : RouterEnv) (sid query : String) (jobId : Option String)
    (cls : ClassifyOutcome) : AgentResponse :=
  match cls with
  | ClassifyOutcome.failed =>
      reasoningResponse env sid query jobId none Intent.conversational
  | ClassifyOutcome.ok intent toolHint =>
      match intent with
      | Intent.metadata =>
          match env.metadataAnswer with
          | some a =>
              { answer := a, session_id := sid, intent := Intent.metadata
                routed_via := RoutedVia.metadataFastpath }
          | none => convFastpath env sid query jobId toolHint Intent.metadata
      | Intent.conversational =>
          match toolHint with
          | some t => reasoningResponse env sid query jobId (some t) Intent.conversational
          | none => convFastpath env sid query jobId none Intent.conversational
      | Intent.tool => reasoningResponse env sid query jobId toolHint Intent.tool
      | Intent.retrieval => reasoningResponse env sid query jobId toolHint Intent.retrieval

/-! ### Reasoning loop

Modelled from the spec: the ReActAgent loop body of fn-agent is not among
the provided source files; the flowchart draws the
reason/select/execute/reflect cycle and the spec fixes the hard iteration
cap, the best-effort answer on cap exhaustion, and tool failure being fed
back as an observation. -/

/-- Outcome of executing one tool call inside the loop. -/
inductive ToolOutcome
  | ok (result : String)
  | err (msg : String)
deriving DecidableEq

/-- The LLM-driven choices of the loop, as oracles over the accumulated
observations: execute the selected tool, decide whether the observations
suffice (returning the synthesized answer when they do), and produce the
degraded best-effort answer when the iteration cap is exhausted. -/
structure LoopEnv where
  execTool : List String → ToolOutcome
  synthesize : List String → Option String
  bestEffort : List String → String

/-- Result of the reasoning loop: a synthesized answer, or the degraded
best-effort answer on cap exhaustion. -/
inductive LoopResult
  | answered (a : String)
  | exhausted (a : String)
deriving DecidableEq

/-- A tool outcome fed back into the loop as an observation: a failure
becomes an observation string, never an exception. -/
def toolObservation : ToolOutcome → String
  | ToolOutcome.ok r => r
  | ToolOutcome.err m => "Tool failed: " ++ m

/-- The hard iteration cap (spec: enforced to bound latency and cost; the
exact value is not in the provided sources). -/
def IterationCap : Nat := 10

/-- One reasoning loop run with the given remaining iteration budget,
returning the result and the number of iterations actually executed. -/
def runLoopCount (env : LoopEnv) : Nat → List String → LoopResult × Nat
  | 0, obs => (LoopResult.exhausted (env.bestEffort obs), 0)
  | fuel + 1, obs =>
      match env.synthesize (obs ++ [toolObservation (env.execTool obs)]) with
      | some a => (LoopResult.answered a, 1)
      | none =>
          ((runLoopCount env fuel (obs ++ [toolObservation (env.execTool obs)])).1,
            (runLoopCount env fuel (obs ++ [toolObservation (env.execTool obs)])).2 + 1)

/-- Entry point of the reasoning loop on an effective query. -/
def run (env : LoopEnv) (query : String) : LoopResult × Nat :=
  runLoopCount env IterationCap [query]

/-- A loop environment in which every tool call fails and no observation set
is ever sufficient, exercising the iteration cap. -/
def crashEnv : LoopEnv :=
  { execTool := fun _ => ToolOutcome.err "tool crashed"
    synthesize := fun _ => none
    bestEffort := fun _ => "best effort answer" }

/-! ### Chunker

Modelled from the spec: chunking.py is not among the provided source files.
A document is modelled, after sentence splitting and whitespace
normalization, as the list of its sentences; a sentence longer than the
target window stands for the pieces of the hard character cut, which
concatenate back to it.  Sizes are estimated tokens under a fixed
chars-per-token heuristic (about 4 characters per token). -/

/-- A chunk: the overlap sentences carried over from the previous chunk
followed by the sentences first covered by this chunk. -/
structure Chunk where
  overlapText : List String
  newText : List String
deriving DecidableEq

/-- The full text of a chunk. -/
def Chunk.text (c : Chunk) : List String := c.overlapText ++ c.newText

/-- Estimated token count of a sentence (fixed chars-per-token heuristic). -/
def estTokens (s : String) : Nat := s.length / 4

/-- Greedily extend the current chunk with further sentences while the
accumulated estimated-token size stays within the target. -/
def takeGroupAux (target size : Nat) : List String → List String × List String
  | [] => ([], [])
  | s :: rest =>
      if size + estTokens s ≤ target then
        (s :: (takeGroupAux target (size + estTokens s) rest).1,
          (takeGroupAux target (size + estTokens s) rest).2)
      else ([], s :: rest)

/-- Longest prefix whose accumulated estimated-token size fits the budget. -/
def takeWhileBudget (budget : Nat) : List String → List String
  | [] => []
  | s :: rest =>
      if estTokens s ≤ budget then s :: takeWhileBudget (budget - estTokens s) rest
      else []

/-- The trailing sentences of the previous chunk that fit the overlap
budget, carried into the next chunk for context continuity. -/
def overlapSuffix (overlap : Nat) (g : List String) : List String :=
  (takeWhileBudget overlap g.reverse).reverse

/-- Build the chunk sequence; prev is the new text of the previous chunk
(empty for the first).  The fuel argument is the sentence count, which
bounds the recursion since every chunk consumes at least one sentence. -/
def chunksFromFuel (target overlap : Nat) : Nat → List String → List String → List Chunk
  | 0, _, _ => []
  | _ + 1, _, [] => []
  | fuel + 1, prev, s :: rest =>
      { overlapText := overlapSuffix overlap prev
        newText := s :: (takeGroupAux target (estTokens s) rest).1 } ::
        chunksFromFuel target overlap fuel
          (s :: (takeGroupAux target (estTokens s) rest).1)
          (takeGroupAux target (estTokens s) rest).2

/-- Chunk a document, given as its sentence list, into overlapping
sentence-boundary chunks. -/
def chunkDoc (target overlap : Nat) (sentences : List String) : List Chunk :=
  chunksFromFuel target overlap sentences.length [] sentences

/-! ### Session store

Modelled from the spec: the in-process session map of fn-agent
(context.user_data.sessions) is not among the provided source files; the
README fixes one ReActAgent plus one ChatMemoryBuffer per session_id,
created lazily, and the DELETE /session contract. -/

/-- A reasoning-agent instance; ownerSession records the session it was
created for and memoryBudget the ChatMemoryBuffer token bound. -/
structure AgentInstance where
  ownerSession : String
  memoryBudget : Nat
deriving DecidableEq

/-- One turn of a conversation history. -/
structure ChatTurn where
  role : String
  content : String
deriving DecidableEq

/-- A session: its bounded history and its private reasoning-agent
instance. -/
structure Session where
  history : List ChatTurn
  agent : AgentInstance
deriving DecidableEq

/-- The session store: a map from session identifier to session.  A map
cannot bind one identifier to two sessions, so no two sessions share a
session_id by construction. -/
def SessionStore := String → Option Session

/-- The store at process start. -/
def emptyStore : SessionStore := fun _ => none

/-- A fresh session for a given identifier: empty history and a private
agent owned by that identifier, with the 2048-token memory bound. -/
def newSession (sid : String) : Session :=
  { history := [], agent := { ownerSession := sid, memoryBudget := 2048 } }

/-- Look up a session, creating it lazily on first use. -/
def getOrCreate (store : SessionStore) (sid : String) : Session :=
  match store sid with
  | some s => s
  | none => newSession sid

/-- Record one user/assistant exchange under a session identifier; only
that session's entry changes. -/
def recordTurns (store : SessionStore) (sid userMsg answer : String) : SessionStore :=
  fun k =>
    if k = sid then
      some { getOrCreate store sid with
        history := (getOrCreate store sid).history ++
          [{ role := "user", content := userMsg },
            { role := "assistant", content := answer }] }
    else store k

/-- The history visible when querying a session identifier. -/
def historyOf (store : SessionStore) (sid : String) : List ChatTurn :=
  match store sid with
  | some s => s.history
  | none => []

/-- Every stored session's agent is owned by the key it is stored under. -/
def WellOwned (store : SessionStore) : Prop :=
  ∀ sid s, store sid = some s → s.agent.ownerSession = sid

/-- A concrete store holding two fresh sessions. -/
def demoStore : SessionStore :=
  fun k =>
    if k = "alice" then some (newSession "alice")
    else if k = "bob" then some (newSession "bob")
    else none

/-- The response payload of session teardown. -/
structure EndSessionResponse where
  status : String
  session_id : String
deriving DecidableEq

/-- Session teardown: remove the session if present and return the ok
payload regardless of whether the identifier was known. -/
def endSession (store : SessionStore) (sid : String) :
    SessionStore × EndSessionResponse :=
  (fun k => if k = sid then none else store k,
    { status := "ok", session_id := sid })

/-! ### Frontend (translated from src/frontend/src/services/api.js) -/

/-- The JSON body sendChat posts to /api/chat; job_id is an optional field
(none means the field is absent from the body, not null). -/
structure ChatRequestBody where
  message : String
  session_id : String
  job_id : Option String
deriving DecidableEq

/-- JavaScript truthiness of the jobId argument: null (none) and the empty
string are falsy. -/
def jsTruthy : Option String → Bool
  | none => false
  | some s => !(s == "")

/-- The body built by sendChat: message and session_id always; job_id added
only when jobId is truthy. -/
def sendChatBody (message : String) (jobId : Option String) (sessionId : String) :
    ChatRequestBody :=
  { message := message
    session_id := sessionId
    job_id := if jsTruthy jobId then jobId else none }

/-- A message of the ChatWindow transcript state. -/
structure UiMessage where
  role : String
  content : String
deriving DecidableEq

/-- The result of awaiting onSend inside handleSend: the response answer,
or the message of the thrown error. -/
inductive SendOutcome
  | ok (answer : String)
  | err (msg : String)
deriving DecidableEq

/-- Executable embedding of the JavaScript String.prototype.trim: drop
leading and trailing whitespace. -/
def strTrim (s : String) : String :=
  String.mk (((s.data.dropWhile Char.isWhitespace).reverse.dropWhile
    Char.isWhitespace).reverse)

/-- handleSend from ChatWindow: trim the input; if it is empty or a request
is in flight, do nothing; otherwise append the user turn and, once the send
settles, the assistant turn on success or an error turn on failure.
Returns the new transcript and whether a send happened. -/
def handleSend (input : String) (loading : Bool) (messages : List UiMessage)
    (outcome : SendOutcome) : List UiMessage × Bool :=
  let text := strTrim input
  if text = "" ∨ loading = true then (messages, false)
  else
    match outcome with
    | SendOutcome.ok answer =>
        (messages ++ [{ role := "user", content := text }] ++
          [{ role := "assistant", content := answer }], true)
    | SendOutcome.err m =>
        (messages ++ [{ role := "user", content := text }] ++
          [{ role := "error", content := m }], true)

end CareerAI

namespace CareerAI

/-! ### Theorems for the scoring layer -/

/-- C1: for every pair of skill sets the fit score lies in the unit
interval, and an empty job skill set yields score exactly 0 with empty
matched and missing sets (no division-by-zero failure: fit_score is total). -/
theorem fit_score_in_unit_interval (R J : SkillSet) :
    0 ≤ (fit_score R J).score ∧ (fit_score R J).score ≤ 1 ∧
      (J = ∅ → (fit_score R J).score = 0 ∧ (fit_score R J).matched = ∅ ∧
        (fit_score R J).missing = ∅) := by
  refine ⟨?_, ?_, ?_⟩
  · simp only [fit_score]
    split
    · exact le_refl 0
    · positivity
  · simp only [fit_score]
    split
    · exact zero_le_one
    · rename_i h
      have hpos : (0 : ℚ) < (J.card : ℚ) := by
        exact_mod_cast Nat.pos_of_ne_zero h
      rw [div_le_one hpos]
      exact_mod_cast Finset.card_le_card Finset.inter_subset_right
  · intro hJ
    subst hJ
    refine ⟨?_, ?_, ?_⟩ <;> simp [fit_score]

/-- Witness for C1 at a concrete input with an empty job skill set. -/
theorem fit_score_in_unit_interval_witness :
    (fit_score {"python"} (∅ : SkillSet)).score = 0 ∧
      (fit_score {"python"} (∅ : SkillSet)).matched = ∅ ∧
      (fit_score {"python"} (∅ : SkillSet)).missing = ∅ :=
  (fit_score_in_unit_interval {"python"} ∅).2.2 rfl

/-- C2: for a non-empty job skill set, matched and missing partition the job
set, the bonus set is the resume minus the matched set, and the bonus set is
disjoint from the job set. -/
theorem fit_score_partition (R J : SkillSet) (h : J ≠ ∅) :
    (fit_score R J).matched ∪ (fit_score R J).missing = J ∧
      (fit_score R J).matched ∩ (fit_score R J).missing = ∅ ∧
      (fit_score R J).bonus = R \ (fit_score R J).matched ∧
      (fit_score R J).bonus ∩ J = ∅ := by
  refine ⟨?_, ?_, ?_, ?_⟩
  · ext x
    simp only [fit_score, Finset.mem_union, Finset.mem_inter, Finset.mem_sdiff]
    tauto
  · ext x
    simp only [fit_score, Finset.mem_inter, Finset.mem_sdiff, Finset.not_mem_empty,
      iff_false]
    tauto
  · ext x
    simp only [fit_score, Finset.mem_sdiff, Finset.mem_inter]
    tauto
  · ext x
    simp only [fit_score, Finset.mem_inter, Finset.mem_sdiff, Finset.not_mem_empty,
      iff_false]
    tauto

/-- Witness for C2 at the spec scenario resume and job skill sets. -/
theorem fit_score_partition_witness :
    (fit_score {"python", "sql", "docker"} {"python", "kubernetes", "sql"}).matched ∪
        (fit_score {"python", "sql", "docker"} {"python", "kubernetes", "sql"}).missing =
        {"python", "kubernetes", "sql"} ∧
      (fit_score {"python", "sql", "docker"} {"python", "kubernetes", "sql"}).matched ∩
        (fit_score {"python", "sql", "docker"} {"python", "kubernetes", "sql"}).missing = ∅ ∧
      (fit_score {"python", "sql", "docker"} {"python", "kubernetes", "sql"}).bonus =
        {"python", "sql", "docker"} \
          (fit_score {"python", "sql", "docker"} {"python", "kubernetes", "sql"}).matched ∧
      (fit_score {"python", "sql", "docker"} {"python", "kubernetes", "sql"}).bonus ∩
        {"python", "kubernetes", "sql"} = ∅ :=
  fit_score_partition {"python", "sql", "docker"} {"python", "kubernetes", "sql"}
    (by decide)

/-! ### Theorems for the router -/

/-- C3: when intent classification fails, the request is routed as the
conversational intent through the full reasoning path, with the job hint
still applied to the effective query, and the result is a complete
answer/session_id/intent/routed_via payload echoing the session identifier
(no user-facing error: route is total). -/
theorem classification_failure_fallback (env : RouterEnv) (sid query : String)
    (jobId : Option String) :
    route env sid query jobId ClassifyOutcome.failed =
      { answer := env.agentAnswer (effectiveQuery query jobId none)
        session_id := sid
        intent := Intent.conversational
        routed_via := RoutedVia.reasoning } := rfl

/-- C4 counterexample: a metadata-intent request whose metadata handler
fails internally but whose direct llm.chat call succeeds is answered through
the conversational fast-path, not through the reasoning path. -/
theorem metadata_failure_counterexample :
    (route
        { metadataAnswer := none
          convAnswer := some "You have 2 jobs."
          agentAnswer := fun _ => "agent answer" }
        "s1" "how many jobs do I have" none
        (ClassifyOutcome.ok Intent.metadata none)).routed_via =
      RoutedVia.conversationalFastpath ∧
    (route
        { metadataAnswer := none
          convAnswer := some "You have 2 jobs."
          agentAnswer := fun _ => "agent answer" }
        "s1" "how many jobs do I have" none
        (ClassifyOutcome.ok Intent.metadata none)).routed_via ≠
      RoutedVia.reasoning :=
  ⟨rfl, by decide⟩

/-- C4 amended: when the metadata fast-path fails internally, the router
falls through to the conversational fast-path and, only when that direct LLM
call also fails, to the reasoning path; in every case it responds with a
well-formed payload echoing the session identifier, never an error. -/
theorem metadata_failure_fallback (env : RouterEnv) (sid query : String)
    (jobId toolHint : Option String) (h : env.metadataAnswer = none) :
    (route env sid query jobId (ClassifyOutcome.ok Intent.metadata toolHint)).session_id
        = sid ∧
      ((route env sid query jobId (ClassifyOutcome.ok Intent.metadata toolHint)).routed_via
          = RoutedVia.conversationalFastpath ∨
        (route env sid query jobId (ClassifyOutcome.ok Intent.metadata toolHint)).routed_via
          = RoutedVia.reasoning) ∧
      (env.convAnswer = none →
        (route env sid query jobId (ClassifyOutcome.ok Intent.metadata toolHint)).routed_via
          = RoutedVia.reasoning) ∧
      (∀ a, env.convAnswer = some a →
        (route env sid query jobId (ClassifyOutcome.ok Intent.metadata toolHint)).answer
          = a) := by
  simp only [route, h, convFastpath]
  cases hc : env.convAnswer with
  | none =>
      simp [reasoningResponse]
  | some a =>
      simp

/-- Witness for C4 amended: metadata handler and direct LLM call both fail,
so the request reaches the reasoning path. -/
theorem metadata_failure_fallback_witness :
    (route
        { metadataAnswer := none, convAnswer := none
          agentAnswer := fun _ => "agent answer" }
        "s1" "how many jobs do I have" none
        (ClassifyOutcome.ok Intent.metadata none)).routed_via = RoutedVia.reasoning ∧
    (route
        { metadataAnswer := none, convAnswer := none
          agentAnswer := fun _ => "agent answer" }
        "s1" "how many jobs do I have" none
        (ClassifyOutcome.ok Intent.metadata none)).session_id = "s1" :=
  ⟨(metadata_failure_fallback
      { metadataAnswer := none, convAnswer := none
        agentAnswer := fun _ => "agent answer" }
      "s1" "how many jobs do I have" none none rfl).2.2.1 rfl,
    (metadata_failure_fallback
      { metadataAnswer := none, convAnswer := none
        agentAnswer := fun _ => "agent answer" }
      "s1" "how many jobs do I have" none none rfl).1⟩

end CareerAI

namespace CareerAI

/-! ### Theorems for the reasoning loop -/

/-- The loop executes at most as many iterations as its budget allows. -/
theorem runLoopCount_iters_le (env : LoopEnv) (fuel : Nat) (obs : List String) :
    (runLoopCount env fuel obs).2 ≤ fuel := by
  induction fuel generalizing obs with
  | zero => simp [runLoopCount]
  | succ n ih =>
      simp only [runLoopCount]
      split
      · simp
      · simpa using Nat.succ_le_succ (ih _)

/-- The loop always returns either a synthesized or a best-effort answer. -/
theorem runLoopCount_total (env : LoopEnv) (fuel : Nat) (obs : List String) :
    ∃ a, (runLoopCount env fuel obs).1 = LoopResult.answered a ∨
      (runLoopCount env fuel obs).1 = LoopResult.exhausted a := by
  cases hr : (runLoopCount env fuel obs).1 with
  | answered a => exact ⟨a, Or.inl rfl⟩
  | exhausted a => exact ⟨a, Or.inr rfl⟩

/-- When no observation set is ever sufficient, the loop runs the budget out
and returns the best-effort answer. -/
theorem runLoopCount_noSynth (env : LoopEnv)
    (hs : ∀ o, env.synthesize o = none) (fuel : Nat) (obs : List String) :
    ∃ obsf, (runLoopCount env fuel obs).1 = LoopResult.exhausted (env.bestEffort obsf) := by
  induction fuel generalizing obs with
  | zero => exact ⟨obs, rfl⟩
  | succ n ih =>
      simp only [runLoopCount, hs]
      exact ih _

/-- C5: the reasoning loop terminates within the hard iteration cap and
always yields an answer; when no observation set ever suffices it ends in
the degraded best-effort answer rather than an unbounded retry; and a tool
failure inside an iteration with budget remaining continues the loop with
the failure fed back as an observation instead of propagating. -/
theorem reasoning_loop_terminates (env : LoopEnv) (query : String) :
    (run env query).2 ≤ IterationCap ∧
      (∃ a, (run env query).1 = LoopResult.answered a ∨
        (run env query).1 = LoopResult.exhausted a) ∧
      ((∀ o, env.synthesize o = none) →
        ∃ obsf, (run env query).1 = LoopResult.exhausted (env.bestEffort obsf)) ∧
      (∀ fuel obs m, env.execTool obs = ToolOutcome.err m →
        env.synthesize (obs ++ [toolObservation (ToolOutcome.err m)]) = none →
        (runLoopCount env (fuel + 1) obs).1 =
          (runLoopCount env fuel (obs ++ [toolObservation (ToolOutcome.err m)])).1) := by
  refine ⟨runLoopCount_iters_le env IterationCap [query],
    runLoopCount_total env IterationCap [query],
    fun hs => runLoopCount_noSynth env hs IterationCap [query],
    ?_⟩
  intro fuel obs m h1 h2
  simp only [runLoopCount, h1, h2]

/-- Witness for C5 in the environment where every tool call fails and no
observation set is sufficient. -/
theorem reasoning_loop_terminates_witness :
    (run crashEnv "q").2 ≤ IterationCap ∧
      (∃ obsf, (run crashEnv "q").1 = LoopResult.exhausted (crashEnv.bestEffort obsf)) ∧
      (runLoopCount crashEnv 1 ["q"]).1 =
        (runLoopCount crashEnv 0 (["q"] ++ [toolObservation (ToolOutcome.err "tool crashed")])).1 :=
  ⟨(reasoning_loop_terminates crashEnv "q").1,
    (reasoning_loop_terminates crashEnv "q").2.2.1 (fun _ => rfl),
    (reasoning_loop_terminates crashEnv "q").2.2.2 0 ["q"] "tool crashed" rfl rfl⟩

/-! ### Theorems for the chunker -/

/-- Splitting off one chunk group loses no sentence. -/
theorem takeGroupAux_append (target : Nat) (l : List String) :
    ∀ size, (takeGroupAux target size l).1 ++ (takeGroupAux target size l).2 = l := by
  induction l with
  | nil => intro size; rfl
  | cons s rest ih =>
      intro size
      simp only [takeGroupAux]
      split
      · simpa using ih _
      · rfl

/-- The remainder after one chunk group is no longer than the input. -/
theorem takeGroupAux_snd_length (target : Nat) (l : List String) :
    ∀ size, (takeGroupAux target size l).2.length ≤ l.length := by
  induction l with
  | nil => intro size; simp [takeGroupAux]
  | cons s rest ih =>
      intro size
      simp only [takeGroupAux]
      split
      · simp only [List.length_cons]
        exact Nat.le_succ_of_le (ih _)
      · simp

/-- The new text of the chunk sequence concatenates back to the document. -/
theorem chunksFromFuel_flatten (target overlap fuel : Nat) :
    ∀ prev l, l.length ≤ fuel →
      ((chunksFromFuel target overlap fuel prev l).map (fun c => c.newText)).flatten = l := by
  induction fuel with
  | zero =>
      intro prev l h
      have hl : l = [] := List.length_eq_zero.mp (Nat.le_zero.mp h)
      subst hl; rfl
  | succ n ih =>
      intro prev l h
      cases l with
      | nil => rfl
      | cons s rest =>
          have hb : (takeGroupAux target (estTokens s) rest).2.length ≤ n := by
            have h1 := takeGroupAux_snd_length target rest (estTokens s)
            simp only [List.length_cons] at h
            omega
          simp only [chunksFromFuel, List.map_cons, List.flatten_cons]
          rw [ih _ _ hb]
          simpa using takeGroupAux_append target rest (estTokens s)

/-- takeWhileBudget returns an initial segment of its input. -/
theorem takeWhileBudget_append (l : List String) :
    ∀ budget, ∃ r, takeWhileBudget budget l ++ r = l := by
  induction l with
  | nil => intro b; exact ⟨[], rfl⟩
  | cons s rest ih =>
      intro b
      simp only [takeWhileBudget]
      split
      · obtain ⟨r, hr⟩ := ih (b - estTokens s)
        exact ⟨r, by simp [hr]⟩
      · exact ⟨s :: rest, rfl⟩

/-- The overlap carried from a chunk group is a trailing segment of it. -/
theorem overlapSuffix_restore (o : Nat) (g : List String) :
    ∃ ys, ys ++ overlapSuffix o g = g := by
  obtain ⟨r, hr⟩ := takeWhileBudget_append g.reverse o
  refine ⟨r.reverse, ?_⟩
  have h2 := congrArg List.reverse hr
  simpa [overlapSuffix, List.reverse_append] using h2

/-- The first chunk produced carries the overlap computed from prev. -/
theorem chunksFromFuel_head_overlap (target overlap fuel : Nat)
    (prev l : List String) (c : Chunk) (cs : List Chunk)
    (h : chunksFromFuel target overlap fuel prev l = c :: cs) :
    c.overlapText = overlapSuffix overlap prev := by
  cases fuel with
  | zero => simp [chunksFromFuel] at h
  | succ n =>
      cases l with
      | nil => simp [chunksFromFuel] at h
      | cons s rest =>
          simp only [chunksFromFuel] at h
          injection h with h1 h2
          rw [← h1]

/-- Every chunk's overlap text is a trailing segment of the text of the
chunk before it. -/
theorem chunksFromFuel_chain (target overlap fuel : Nat) :
    ∀ prev l,
      List.Chain' (fun a b => ∃ xs, xs ++ b.overlapText = a.overlapText ++ a.newText)
        (chunksFromFuel target overlap fuel prev l) := by
  induction fuel with
  | zero => intro prev l; simp [chunksFromFuel]
  | succ n ih =>
      intro prev l
      cases l with
      | nil => simp [chunksFromFuel]
      | cons s rest =>
          simp only [chunksFromFuel]
          rw [List.chain'_cons']
          refine ⟨?_, ih _ _⟩
          intro y hy
          cases hh : chunksFromFuel target overlap n
              (s :: (takeGroupAux target (estTokens s) rest).1)
              (takeGroupAux target (estTokens s) rest).2 with
          | nil => rw [hh] at hy; simp at hy
          | cons c cs =>
              rw [hh] at hy
              simp only [List.head?_cons, Option.mem_def, Option.some.injEq] at hy
              subst hy
              have hov := chunksFromFuel_head_overlap target overlap n _ _ c cs hh
              obtain ⟨ys, hys⟩ :=
                overlapSuffix_restore overlap (s :: (takeGroupAux target (estTokens s) rest).1)
              refine ⟨overlapSuffix overlap prev ++ ys, ?_⟩
              dsimp only
              rw [hov, List.append_assoc, hys]

/-- C6: chunking is a pure function of the document; concatenating the
chunk texts with the overlap segments removed reconstructs the whole
sentence sequence of the document, each chunk's overlap text being a
trailing segment of the previous chunk's text; and the empty document
yields the empty chunk sequence. -/
theorem chunk_roundtrip (target overlap : Nat) (sentences : List String) :
    ((chunkDoc target overlap sentences).map (fun c => c.newText)).flatten = sentences ∧
      chunkDoc target overlap [] = [] ∧
      List.Chain' (fun a b => ∃ xs, xs ++ b.overlapText = Chunk.text a)
        (chunkDoc target overlap sentences) :=
  ⟨chunksFromFuel_flatten target overlap sentences.length [] sentences (le_refl _),
    rfl,
    chunksFromFuel_chain target overlap sentences.length [] sentences⟩

/-! ### Theorems for the session store -/

/-- The concrete two-session store satisfies the ownership invariant. -/
theorem demoStore_wellOwned : WellOwned demoStore := by
  intro sid s h
  unfold demoStore at h
  split at h
  · rename_i h1
    injection h with h2
    subst h2
    subst h1
    rfl
  · split at h
    · rename_i h2
      injection h with h3
      subst h3
      subst h2
      rfl
    · exact Option.noConfusion h

/-- C7: sessions are isolated: recording an exchange under session A leaves
the history visible under a different session B unchanged, preserves the
invariant that every stored session's agent is owned by its own key, and
under that invariant the agent instances of two distinct sessions are never
the same. -/
theorem session_isolation (store : SessionStore) (A B userMsg answer : String)
    (hAB : A ≠ B) (hW : WellOwned store) :
    historyOf (recordTurns store A userMsg answer) B = historyOf store B ∧
      WellOwned (recordTurns store A userMsg answer) ∧
      (∀ sA sB, store A = some sA → store B = some sB → sA.agent ≠ sB.agent) := by
  refine ⟨?_, ?_, ?_⟩
  · have hB : recordTurns store A userMsg answer B = store B := by
      unfold recordTurns
      exact if_neg (fun hBA => hAB hBA.symm)
    simp [historyOf, hB]
  · intro sid s h
    by_cases hsid : sid = A
    · subst hsid
      unfold recordTurns at h
      rw [if_pos rfl] at h
      injection h with h1
      subst h1
      show (getOrCreate store sid).agent.ownerSession = sid
      unfold getOrCreate
      cases hA : store sid with
      | some s0 => exact hW sid s0 hA
      | none => rfl
    · unfold recordTurns at h
      rw [if_neg hsid] at h
      exact hW sid s h
  · intro sA sB h1 h2 heq
    apply hAB
    have e1 := hW A sA h1
    have e2 := hW B sB h2
    rw [← e1, ← e2, heq]

/-- Witness for C7 on the concrete two-session store. -/
theorem session_isolation_witness :
    historyOf (recordTurns demoStore "alice" "hi" "hello") "bob" =
        historyOf demoStore "bob" ∧
      (newSession "alice").agent ≠ (newSession "bob").agent :=
  ⟨(session_isolation demoStore "alice" "bob" "hi" "hello" (by decide)
      demoStore_wellOwned).1,
    (session_isolation demoStore "alice" "bob" "hi" "hello" (by decide)
      demoStore_wellOwned).2.2 (newSession "alice") (newSession "bob")
      (by decide) (by decide)⟩

/-- C8: session teardown returns the ok payload for every session
identifier, known or not; it is idempotent (tearing down again returns the
same payload), returns ok even on the empty store, and actually removes the
session. -/
theorem end_session_idempotent_ok (store : SessionStore) (sid : String) :
    (endSession store sid).2 = { status := "ok", session_id := sid } ∧
      (endSession (endSession store sid).1 sid).2 =
        { status := "ok", session_id := sid } ∧
      (endSession emptyStore sid).2 = { status := "ok", session_id := sid } ∧
      (endSession store sid).1 sid = none :=
  ⟨rfl, rfl, rfl, by simp [endSession]⟩

/-! ### Theorems for the frontend -/

/-- C9: the body sendChat posts always carries the message and session_id
fields; the job_id field is present exactly when the jobId argument is
truthy, so a null or empty-string job selection omits it entirely. -/
theorem sendChat_body_fields (message : String) (jobId : Option String)
    (sessionId : String) :
    (sendChatBody message jobId sessionId).message = message ∧
      (sendChatBody message jobId sessionId).session_id = sessionId ∧
      (∀ j, jobId = some j → j ≠ "" →
        (sendChatBody message jobId sessionId).job_id = some j) ∧
      (jobId = none → (sendChatBody message jobId sessionId).job_id = none) ∧
      (jobId = some "" → (sendChatBody message jobId sessionId).job_id = none) := by
  refine ⟨rfl, rfl, ?_, ?_, ?_⟩
  · intro j hj hne
    subst hj
    simp [sendChatBody, jsTruthy, hne]
  · intro hj
    subst hj
    rfl
  · intro hj
    subst hj
    simp [sendChatBody, jsTruthy]

/-- Witness for C9 at a truthy, a null and an empty-string job selection. -/
theorem sendChat_body_fields_witness :
    (sendChatBody "hi" (some "job-1") "s1").job_id = some "job-1" ∧
      (sendChatBody "hi" none "s1").job_id = none ∧
      (sendChatBody "hi" (some "") "s1").job_id = none ∧
      (sendChatBody "hi" (some "job-1") "s1").message = "hi" :=
  ⟨(sendChat_body_fields "hi" (some "job-1") "s1").2.2.1 "job-1" rfl (by decide),
    (sendChat_body_fields "hi" none "s1").2.2.2.1 rfl,
    (sendChat_body_fields "hi" (some "") "s1").2.2.2.2 rfl,
    (sendChat_body_fields "hi" (some "job-1") "s1").1⟩

/-- C10: handleSend leaves the transcript unchanged and sends nothing when
the trimmed input is empty or a request is in flight; otherwise it appends
exactly one user turn followed by one assistant turn on success or one
error turn on failure; and in every case the previous transcript is a
preserved initial segment of the new one. -/
theorem handleSend_transcript (input : String) (loading : Bool)
    (messages : List UiMessage) (outcome : SendOutcome) :
    ((strTrim input = "" ∨ loading = true) →
      handleSend input loading messages outcome = (messages, false)) ∧
      (strTrim input ≠ "" → loading = false →
        (∀ a, outcome = SendOutcome.ok a →
          (handleSend input loading messages outcome).1 =
            messages ++ [{ role := "user", content := strTrim input },
              { role := "assistant", content := a }]) ∧
        (∀ m, outcome = SendOutcome.err m →
          (handleSend input loading messages outcome).1 =
            messages ++ [{ role := "user", content := strTrim input },
              { role := "error", content := m }])) ∧
      (∃ tail, (handleSend input loading messages outcome).1 = messages ++ tail) := by
  refine ⟨?_, ?_, ?_⟩
  · intro h
    unfold handleSend
    rw [if_pos h]
  · intro hne hld
    subst hld
    constructor
    · intro a ha
      subst ha
      simp [handleSend, hne]
    · intro m hm
      subst hm
      simp [handleSend, hne]
  · by_cases h : strTrim input = "" ∨ loading = true
    · refine ⟨[], ?_⟩
      unfold handleSend
      rw [if_pos h]
      simp
    · cases outcome with
      | ok a =>
          refine ⟨[{ role := "user", content := strTrim input },
            { role := "assistant", content := a }], ?_⟩
          unfold handleSend
          rw [if_neg h]
          simp
      | err m =>
          refine ⟨[{ role := "user", content := strTrim input },
            { role := "error", content := m }], ?_⟩
          unfold handleSend
          rw [if_neg h]
          simp

/-- Witness for C10: a loading no-op and a successful send. -/
theorem handleSend_transcript_witness :
    handleSend "  " true [] (SendOutcome.ok "yo") = ([], false) ∧
      (handleSend " hi " false [] (SendOutcome.ok "yo")).1 =
        [{ role := "user", content := strTrim " hi " },
          { role := "assistant", content := "yo" }] :=
  ⟨(handleSend_transcript "  " true [] (SendOutcome.ok "yo")).1 (Or.inr rfl),
    ((handleSend_transcript " hi " false [] (SendOutcome.ok "yo")).2.1
      (by decide) rfl).1 "yo" rfl⟩

end CareerAI
